import Mathlib

/-!
Verification of the spatial accessibility engine of daf-mappa-quartiere.

The grid construction (GridMaker) is embedded from src/models/process_tools.py
and the service-unit factories from src/models/factories.py.  The kernel,
threshold and aggregation logic live in the repository module core.py, which is
not among the provided sources; those parts are modelled from the specification
and are marked as such in their doc comments.
-/

set_option maxHeartbeats 1000000

namespace MappaQuartiere

/-- Modelled from the spec: the AgeGroup enumeration of beneficiary cohorts
(spec section 3 lists Newborn, Kinder, ChildPrimary, ChildMid, ChildHigh); the
enumeration itself lives in the repository module city_items.py, which is not
among the provided sources. -/
inductive AgeGroup where
  | Newborn
  | Kinder
  | ChildPrimary
  | ChildMid
  | ChildHigh
deriving DecidableEq, Repr

/-- Modelled from the spec: the universal set of age groups (spec section 3
requires membership, the universal set and complement operations). -/
def AgeGroup.all : List AgeGroup :=
  [.Newborn, .Kinder, .ChildPrimary, .ChildMid, .ChildHigh]

/-- Modelled from the spec: complement of a subset of age groups. -/
def AgeGroup.all_but (excluded : List AgeGroup) : List AgeGroup :=
  AgeGroup.all.filter (fun g => decide (g ∉ excluded))

/-! ## GridMaker: zone classification (process_tools.py, lines 62-95)

A zone row of the quartieri layer is abstracted to its polygon containment
test together with its zone identifier; the city boundary (the cascaded union
of the zone polygons) is abstracted to its containment test.  The lattice
point type is a parameter. -/

/-- One row of the quartieri subdivision layer: the containment test of its
polygon and its zone identifier (process_tools.py, lines 73-79). -/
structure Zone (α : Type) where
  covers : α → Bool
  zid : ℕ

/-- The linear scan over zone rows (process_tools.py, lines 72-81): the first
zone containing the point, scanning in enumeration order; the for-loop breaks
at the first match. -/
def firstZone {α : Type} (zones : List (Zone α)) (p : α) : Option ℕ :=
  (zones.find? (fun z => z.covers p)).map Zone.zid

/-- Classification of one lattice point (process_tools.py, lines 66-85).
Points outside the city boundary get the marker none (np.nan in the source)
and the zone scan is not performed; in-boundary points get the first containing
zone identifier, and an in-boundary point contained in no zone triggers the
assertion of line 82, which aborts grid construction. -/
def classifyPoint {α : Type} (boundary : α → Bool) (zones : List (Zone α))
    (p : α) : Except String (Option ℕ) :=
  if boundary p then
    match firstZone zones p with
    | some zid => .ok (some zid)
    | none => .error "Point within city boundary was not assigned to any zone"
  else
    .ok none

/-- Classification of the whole lattice (the loop of process_tools.py,
lines 66-85), left to right; the first assertion failure aborts the
construction. -/
def classifyGrid {α : Type} (boundary : α → Bool) (zones : List (Zone α)) :
    List α → Except String (List (α × Option ℕ))
  | [] => .ok []
  | p :: rest =>
    match classifyPoint boundary zones p with
    | .error m => .error m
    | .ok z =>
      match classifyGrid boundary zones rest with
      | .error m => .error m
      | .ok res => .ok ((p, z) :: res)

/-- The two views exposed by GridMaker (process_tools.py, lines 87-95):
grid keeps only the in-boundary points, fullGrid keeps every lattice point. -/
structure GridViews (α : Type) where
  fullGrid : List (α × Option ℕ)
  grid : List (α × Option ℕ)

/-- Building both views (process_tools.py, lines 87-95): the source filters the
flattened meshgrid arrays by the boolean in-perimeter mask. -/
def makeGridViews {α : Type} (boundary : α → Bool) (zones : List (Zone α))
    (points : List α) : Except String (GridViews α) :=
  (classifyGrid boundary zones points).map (fun res =>
    { fullGrid := res, grid := res.filter (fun pr => boundary pr.1) })

/-! ## GridMaker: lattice construction (process_tools.py, lines 50-60, 97-105) -/

/-- np.linspace over rationals: n evenly spaced samples from a to b inclusive;
numpy returns the empty array for n = 0 and the single start point for n = 1. -/
def linspace (a b : ℚ) (n : ℕ) : List ℚ :=
  if n = 0 then []
  else if n = 1 then [a]
  else (List.range n).map (fun i => a + (b - a) * i / (n - 1))

/-- np.meshgrid with ij indexing followed by flattening: the Cartesian product
lattice, longitude-major (process_tools.py, lines 59-60). -/
def meshFlatten (longs lats : List ℚ) : List (ℚ × ℚ) :=
  longs.flatMap (fun x => lats.map (fun y => (x, y)))

/-- The per-axis grid step count (process_tools.py, lines 56-57):
int(lengthKm // gridStep) + 1, i.e. the floor of the quotient plus one.  Python
floor-division already floors, so the int conversion is the identity. -/
noncomputable def nGridSteps (lengthKm step : ℝ) : ℤ :=
  ⌊lengthKm / step⌋ + 1

/-- GridMaker construction (process_tools.py, lines 36-95), with the geographic
inputs abstracted: longRange and latRange are the bounding-box coordinate
ranges, longKm and latKm the two axis lengths in kilometers (computed in the
source by great-circle distance, see longitudeRangeKm and latitudeRangeKm
below) and step the grid step in kilometers.  np.linspace raises ValueError for
a negative sample count, modelled by the error branch; the source performs no
validation of the grid step itself. -/
noncomputable def gridMaker (boundary : ℚ × ℚ → Bool) (zones : List (Zone (ℚ × ℚ)))
    (longRange latRange : ℚ × ℚ) (longKm latKm step : ℝ) :
    Except String (GridViews (ℚ × ℚ)) :=
  let longN : ℤ := nGridSteps longKm step
  let latN : ℤ := nGridSteps latKm step
  if longN < 0 ∨ latN < 0 then .error "Number of samples must be non-negative"
  else
    makeGridViews boundary zones
      (meshFlatten (linspace longRange.1 longRange.2 longN.toNat)
        (linspace latRange.1 latRange.2 latN.toNat))

/-- Degrees to radians, as done by geopy before evaluating the great-circle
formula. -/
noncomputable def degToRad (x : ℝ) : ℝ := x * Real.pi / 180

/-- geopy.distance.great_circle on the sphere of radius 6371.009 km: the
central angle between two (latitude, longitude) pairs given in degrees, times
the earth radius.  geopy evaluates the central angle with an equivalent
atan2 form of the same spherical law of cosines. -/
noncomputable def greatCircleKm (p q : ℝ × ℝ) : ℝ :=
  6371.009 * Real.arccos (Real.sin (degToRad p.1) * Real.sin (degToRad q.1) +
    Real.cos (degToRad p.1) * Real.cos (degToRad q.1) *
      Real.cos (degToRad q.2 - degToRad p.2))

/-- The bounding box of the unioned zone geometries (process_tools.py,
lines 50-55): shapely bounds give longitude min, latitude min, longitude max,
latitude max. -/
structure BBox where
  longMin : ℝ
  latMin : ℝ
  longMax : ℝ
  latMax : ℝ

/-- process_tools.py, lines 97-100: the longitude span in kilometers, measured
by great-circle distance along the parallel at the minimum latitude. -/
noncomputable def longitudeRangeKm (b : BBox) : ℝ :=
  greatCircleKm (b.latMin, b.longMin) (b.latMin, b.longMax)

/-- process_tools.py, lines 102-105: the latitude span in kilometers, measured
by great-circle distance along the meridian at the minimum longitude. -/
noncomputable def latitudeRangeKm (b : BBox) : ℝ :=
  greatCircleKm (b.latMin, b.longMin) (b.latMax, b.longMin)

/-- process_tools.py, line 56: the longitude-axis step count. -/
noncomputable def longNGrid (b : BBox) (step : ℝ) : ℤ :=
  nGridSteps (longitudeRangeKm b) step

/-- process_tools.py, line 57: the latitude-axis step count. -/
noncomputable def latNGrid (b : BBox) (step : ℝ) : ℤ :=
  nGridSteps (latitudeRangeKm b) step

/-! ## AccessibilityKernel (modelled from the spec)

The kernel and threshold computation live in core.py, which is not among the
provided sources. -/

/-- Modelled from the spec: the squared-exponential decay kernel of spec
section 4.2, contribution(d) = weight * exp(-(d / scale)^2); core.py, which
holds the kernel, is not among the provided sources. -/
noncomputable def contribution (scale w d : ℝ) : ℝ :=
  w * Real.exp (-(d / scale) ^ 2)

/-- Modelled from the spec: the threshold distance of spec section 4.2, the
distance at which the untruncated kernel falls below epsilon = 1e-3 of its
peak, so w * exp(-(T / s)^2) = w / 1000 gives T = s * sqrt(log 1000); and
T = 0 for a zero weight.  core.py is not among the provided sources. -/
noncomputable def kernelThreshold (scale w : ℝ) : ℝ :=
  if w = 0 then 0 else scale * Real.sqrt (Real.log 1000)

/-! ## AccessibilityAggregator (modelled from the spec)

The aggregator lives in core.py, which is not among the provided sources.
A unit is abstracted to its position, its cached threshold and its kernel
function of distance; spec section 4.2 mandates that beyond the threshold the
contribution is treated as exactly zero for aggregation purposes. -/

/-- Modelled from the spec: a service unit as seen by the aggregator, carrying
its position, its cached threshold distance and its kernel function (spec
sections 3 and 4.4); core.py is not among the provided sources. -/
structure AggUnit (α : Type) where
  pos : α
  thr : ℝ
  ker : ℝ → ℝ

/-- Modelled from the spec: the effective contribution of a unit at a query
point under the aggregation semantics of spec section 4.2, where beyond the
threshold distance the contribution is treated as exactly zero. -/
noncomputable def effContribution {α : Type} (dist : α → α → ℝ) (u : AggUnit α)
    (p : α) : ℝ :=
  if dist u.pos p ≤ u.thr then u.ker (dist u.pos p) else 0

/-- Modelled from the spec: the unpruned dense evaluation of spec section 4.4,
summing the contribution of every unit at the query point. -/
noncomputable def denseAggregate {α : Type} (dist : α → α → ℝ)
    (units : List (AggUnit α)) (p : α) : ℝ :=
  (units.map (fun u => effContribution dist u p)).sum

/-- Modelled from the spec: the threshold-pruned aggregation of spec
section 4.4; a unit is evaluated only against query points within its cached
threshold distance, and farther points are skipped without invoking the kernel
function. -/
noncomputable def prunedAggregate {α : Type} (dist : α → α → ℝ)
    (units : List (AggUnit α)) (p : α) : ℝ :=
  ((units.filter (fun u => decide (dist u.pos p ≤ u.thr))).map
    (fun u => u.ker (dist u.pos p))).sum

/-- Modelled from the spec: ServiceUnit construction of core.py (not among the
provided sources); spec section 3 requires scale > 0 as an invariant and spec
section 7 classifies a missing or non-positive scale as a ConfigurationError
signaled immediately at construction. -/
noncomputable def mkServiceUnit (scale : ℝ) (ageDiffusion : List (AgeGroup × ℚ)) :
    Except String (ℝ × List (AgeGroup × ℚ)) :=
  if scale ≤ 0 then .error "ConfigurationError: non-positive scale"
  else .ok (scale, ageDiffusion)

/-! ## Factories (factories.py) -/

/-- First-occurrence deduplication, as pandas Series.unique used at
factories.py lines 95 and 152. -/
def uniqueInOrder : List String → List String
  | [] => []
  | x :: xs => x :: uniqueInOrder (xs.filter (fun y => decide (y ≠ x)))
termination_by l => l.length
decreasing_by
  simp only [List.length_cons]
  exact Nat.lt_succ_of_le (List.length_filter_le _ _)

/-- One raw school record (factories.py, lines 87-89): name, school type and
pupil count (the ALUNNI column). -/
structure SchoolRow where
  name : String
  typ : String
  pupils : ℚ

/-- The known school categories (factories.py, lines 91-93). -/
def schoolCategories : List String :=
  ["SCUOLA PRIMARIA", "SCUOLA SECONDARIA I GRADO", "SCUOLA SECONDARIA II GRADO"]

/-- The category to age-group mapping of factories.py, lines 91-93. -/
def schoolAgeDiffusion (typ : String) : List (AgeGroup × ℚ) :=
  if typ = "SCUOLA PRIMARIA" then [(AgeGroup.ChildPrimary, 1)]
  else if typ = "SCUOLA SECONDARIA I GRADO" then [(AgeGroup.ChildMid, 1)]
  else if typ = "SCUOLA SECONDARIA II GRADO" then [(AgeGroup.ChildHigh, 1)]
  else []

/-- A school service unit as produced by SchoolFactory.load (factories.py,
lines 113-122). -/
structure SchoolUnit where
  name : String
  level : String
  ageDiffusion : List (AgeGroup × ℚ)
  scale : ℝ

/-- The scale transform of factories.py, lines 99-104: the square root of the
pupil count, divided by the mean of the square roots over all rows, times the
given mean radius. -/
noncomputable def schoolScale (meanRadius : ℝ) (rows : List SchoolRow)
    (pupils : ℚ) : ℝ :=
  Real.sqrt pupils /
    ((rows.map (fun row => Real.sqrt row.pupils)).sum / rows.length) * meanRadius

/-- The unit list built by the loop of factories.py lines 105-122: units are
produced grouped by school type in first-occurrence order, each carrying the
transformed scale of its own row. -/
noncomputable def schoolUnits (meanRadius : ℝ) (rows : List SchoolRow) :
    List SchoolUnit :=
  (uniqueInOrder (rows.map SchoolRow.typ)).flatMap (fun t =>
    (rows.filter (fun row => decide (row.typ = t))).map (fun row =>
      { name := row.name, level := t, ageDiffusion := schoolAgeDiffusion t,
        scale := schoolScale meanRadius rows row.pupils }))

/-- SchoolFactory.load (factories.py, lines 82-124).  The leading assert on
meanRadius tests Python truthiness, so it rejects a missing or zero radius but
accepts a negative one; the category check of lines 95-97 runs before any unit
is built.  Each iteration of the unit loop (lines 113-122) calls the
ServiceUnit constructor of core.py, which is not among the provided sources
and is modelled from the spec as in mkServiceUnit: construction aborts with a
ConfigurationError when a unit's scale is non-positive, so the load succeeds
exactly when every row's transformed scale is positive. -/
noncomputable def loadSchool (meanRadius : ℝ) (rows : List SchoolRow) :
    Except String (List SchoolUnit) :=
  if meanRadius = 0 then
    .error "Please provide a reference radius for the mean school size"
  else if rows.all (fun row => schoolCategories.contains row.typ) then
    if ∀ row ∈ rows, 0 < schoolScale meanRadius rows row.pupils then
      .ok (schoolUnits meanRadius rows)
    else .error "ConfigurationError: non-positive scale"
  else .error "Unrecognized types in input"

/-- One raw library record (factories.py, lines 138-139). -/
structure LibraryRow where
  name : String
  typ : String

/-- The known library categories (factories.py, lines 142-150). -/
def libraryCategories : List String :=
  ["Specializzata", "Importante non specializzata", "Pubblica",
   "NON SPECIFICATA", "Scolastica", "Istituto di insegnamento superiore",
   "Nazionale"]

/-- The library category to age-group mapping of factories.py, lines 142-150. -/
def libraryAgeDiffusion (typ : String) : List (AgeGroup × ℚ) :=
  if typ = "Specializzata" ∨ typ = "Importante non specializzata" ∨
      typ = "Pubblica" then
    AgeGroup.all.map (fun g => (g, 1))
  else [(AgeGroup.ChildPrimary, 1)]

/-- A library service unit as produced by LibraryFactory.load (factories.py,
lines 164-172); the source passes no scale. -/
structure LibraryUnit where
  name : String
  ageDiffusion : List (AgeGroup × ℚ)

/-- LibraryFactory.load (factories.py, lines 133-174): the category check of
lines 152-154 runs before any unit is built. -/
noncomputable def loadLibrary (meanRadius : ℝ) (rows : List LibraryRow) :
    Except String (List LibraryUnit) :=
  if meanRadius = 0 then
    .error "Please provide a reference radius for the mean library size"
  else if rows.all (fun row => libraryCategories.contains row.typ) then
    .ok ((uniqueInOrder (rows.map LibraryRow.typ)).flatMap (fun t =>
      (rows.filter (fun row => decide (row.typ = t))).map (fun row =>
        { name := row.name, ageDiffusion := libraryAgeDiffusion t })))
  else .error "Unrecognized types in input"

/-- One raw transport stop record (factories.py, lines 186-196): stop
identifier, route identifier and GTFS route type. -/
structure TransportRow where
  stopId : String
  routeId : String
  routeType : ℕ

/-- The known GTFS route types (factories.py, line 192): tram, metro, bus. -/
def gtfsRouteTypes : List ℕ := [0, 1, 3]

/-- The transport-stop age diffusion (factories.py, lines 215-216): weight one
for every age group except Newborn and Kinder. -/
def transportDiffusion : List (AgeGroup × ℚ) :=
  (AgeGroup.all_but [AgeGroup.Newborn, AgeGroup.Kinder]).map (fun g => (g, 1))

/-- The scale dictionary of factories.py, line 201: route type 1 (metro) gets
twice the mean radius, route types 0 and 3 (tram and bus) the mean radius. -/
def transportScale (meanRadius : ℚ) (routeType : ℕ) : ℚ :=
  if routeType = 0 then meanRadius
  else if routeType = 1 then 2 * meanRadius
  else meanRadius

/-- A transport stop unit as produced by TransportStopFactory.load
(factories.py, lines 211-218), generic in the threshold representation
computed by core.py (not among the provided sources). -/
structure TransportUnit (Th : Type) where
  name : String
  routeType : ℕ
  scale : ℚ
  ageDiffusion : List (AgeGroup × ℚ)
  thresholds : Th

/-- A kernel profile: the pair of a scale and an age-diffusion mapping; the
threshold computation of core.py depends on the unit only through this pair. -/
abbrev KernelProfile : Type := ℚ × List (AgeGroup × ℚ)

/-- The unit loop of TransportStopFactory.load (factories.py, lines 204-224)
with its per-route-type threshold cache, generic in the threshold
representation Th and in the threshold computation computeT performed by
ServiceUnit (core.py, not among the provided sources) when no cached value is
supplied.  Besides the unit list, it returns the log of the (route type,
scale, ageDiffusion) triples for which a threshold computation was performed. -/
def loadTransportLoop {Th : Type} (computeT : ℚ → List (AgeGroup × ℚ) → Th)
    (meanRadius : ℚ) : List TransportRow → (ℕ → Option Th) →
    List (TransportUnit Th) × List (ℕ × KernelProfile)
  | [], _ => ([], [])
  | row :: rest, cache =>
    match cache row.routeType with
    | some t =>
      let tail := loadTransportLoop computeT meanRadius rest cache
      ({ name := row.stopId ++ "_" ++ row.routeId, routeType := row.routeType,
         scale := transportScale meanRadius row.routeType,
         ageDiffusion := transportDiffusion, thresholds := t } :: tail.1,
       tail.2)
    | none =>
      let thr := computeT (transportScale meanRadius row.routeType)
        transportDiffusion
      let tail := loadTransportLoop computeT meanRadius rest
        (fun rt => if rt = row.routeType then some thr else cache rt)
      ({ name := row.stopId ++ "_" ++ row.routeId, routeType := row.routeType,
         scale := transportScale meanRadius row.routeType,
         ageDiffusion := transportDiffusion, thresholds := thr } :: tail.1,
       (row.routeType,
         (transportScale meanRadius row.routeType, transportDiffusion)) ::
         tail.2)

/-- TransportStopFactory.load (factories.py, lines 183-225): the route-type
check of lines 192-194 runs before any unit is built; the cache starts empty
for every route type (line 202).  Each loop iteration (lines 205-223) calls
the ServiceUnit constructor of core.py, which is not among the provided
sources and is modelled from the spec as in mkServiceUnit: construction aborts
with a ConfigurationError when a unit's scale is non-positive, so the load
succeeds exactly when every row's route-type scale is positive. -/
def loadTransport {Th : Type} (computeT : ℚ → List (AgeGroup × ℚ) → Th)
    (meanRadius : ℚ) (rows : List TransportRow) :
    Except String (List (TransportUnit Th) × List (ℕ × KernelProfile)) :=
  if meanRadius = 0 then .error "Please provide a reference radius for stops"
  else if rows.all (fun row => gtfsRouteTypes.contains row.routeType) then
    if rows.all (fun row =>
        decide (0 < transportScale meanRadius row.routeType)) then
      .ok (loadTransportLoop computeT meanRadius rows (fun _ => none))
    else .error "ConfigurationError: non-positive scale"
  else .error "Unexpected route type"

/-- The pharmacy age diffusion (factories.py, lines 254-255): weight one for
every age group. -/
def pharmacyDiffusion : List (AgeGroup × ℚ) :=
  AgeGroup.all.map (fun g => (g, 1))

/-- A pharmacy unit as produced by PharmacyFactory.load (factories.py,
lines 249-257), generic in the threshold representation. -/
structure PharmacyUnit (Th : Type) where
  name : String
  scale : ℚ
  ageDiffusion : List (AgeGroup × ℚ)
  thresholds : Th

/-- The unit loop of PharmacyFactory.load (factories.py, lines 243-261) with
its single cached threshold (all pharmacies share the same scale and
diffusion), generic in the threshold computation performed by ServiceUnit
(core.py, not among the provided sources).  Besides the unit list, it returns
the log of the profiles for which a threshold computation was performed. -/
def loadPharmacyLoop {Th : Type} (computeT : ℚ → List (AgeGroup × ℚ) → Th)
    (meanRadius : ℚ) : List String → Option Th →
    List (PharmacyUnit Th) × List KernelProfile
  | [], _ => ([], [])
  | name :: rest, cached =>
    match cached with
    | some t =>
      let tail := loadPharmacyLoop computeT meanRadius rest (some t)
      ({ name := name, scale := meanRadius, ageDiffusion := pharmacyDiffusion,
         thresholds := t } :: tail.1, tail.2)
    | none =>
      let thr := computeT meanRadius pharmacyDiffusion
      let tail := loadPharmacyLoop computeT meanRadius rest (some thr)
      ({ name := name, scale := meanRadius, ageDiffusion := pharmacyDiffusion,
         thresholds := thr } :: tail.1,
       (meanRadius, pharmacyDiffusion) :: tail.2)

/-- PharmacyFactory.load (factories.py, lines 234-263).  Every pharmacy unit
is constructed (lines 249-257) with scale meanRadius by the ServiceUnit
constructor of core.py, which is not among the provided sources and is
modelled from the spec as in mkServiceUnit: construction fails with a
ConfigurationError exactly when at least one unit is built and the radius is
non-positive. -/
def loadPharmacy {Th : Type} (computeT : ℚ → List (AgeGroup × ℚ) → Th)
    (meanRadius : ℚ) (names : List String) :
    Except String (List (PharmacyUnit Th) × List KernelProfile) :=
  if meanRadius = 0 then
    .error "Please provide a reference radius for pharmacies"
  else if names.all (fun _ => decide (0 < meanRadius)) then
    .ok (loadPharmacyLoop computeT meanRadius names none)
  else .error "ConfigurationError: non-positive scale"

/-! ## Theorems -/

/-- The great-circle distance is non-negative: the earth radius times an
arccosine value. -/
theorem greatCircleKm_nonneg (p q : ℝ × ℝ) : 0 ≤ greatCircleKm p q :=
  mul_nonneg (by norm_num) (Real.arccos_nonneg _)

/-- C1: for every service unit collection and every query point, the
threshold-pruned aggregation (skipping, for each unit, all query points
farther than that unit's cached threshold distance, without invoking the
kernel) returns the same aggregated value as the unpruned dense evaluation
that sums the kernel contribution of every unit at the point.  Under the
aggregation semantics of spec section 4.2 (contribution beyond the threshold
treated as exactly zero) the equality is exact, which is within any
floating-point tolerance. -/
theorem prunedAggregate_eq_denseAggregate {α : Type} (dist : α → α → ℝ)
    (units : List (AggUnit α)) (p : α) :
    prunedAggregate dist units p = denseAggregate dist units p := by
  induction units with
  | nil => rfl
  | cons u us ih =>
    unfold prunedAggregate denseAggregate at ih ⊢
    by_cases h : dist u.pos p ≤ u.thr
    · rw [List.filter_cons_of_pos (by simpa using h), List.map_cons,
        List.sum_cons, List.map_cons, List.sum_cons, ih, effContribution,
        if_pos h]
    · rw [List.filter_cons_of_neg (by simpa using h), List.map_cons,
        List.sum_cons, ih, effContribution, if_neg h, zero_add]

/-- C2 counterexample: with scale 1 > 0 and weight 0 ≥ 0 (inputs allowed by
the claim) the kernel is identically zero, hence not strictly decreasing: at
the distances 0 ≤ 0 < 1 the contribution does not strictly decrease, refuting
the strict decrease the claim asserts for every weight w ≥ 0. -/
theorem contribution_not_strictly_decreasing_at_zero_weight :
    contribution 1 0 1 = 0 ∧ contribution 1 0 0 = 0 ∧
    ¬ contribution 1 0 1 < contribution 1 0 0 := by
  refine ⟨?_, ?_, ?_⟩ <;> simp [contribution]

/-- C2 (amended): for every service unit with scale > 0 and per-age-group
weight w ≥ 0, the kernel contribution is non-negative and non-increasing for
d ≥ 0, and strictly decreasing whenever w > 0 (for w = 0 it is constantly zero,
so it cannot be strictly decreasing); contribution(0) = w; and if w = 0 the
contribution is identically 0 and the threshold is 0. -/
theorem contribution_kernel_properties (s w : ℝ) (hs : 0 < s) (hw : 0 ≤ w) :
    (∀ d, 0 ≤ d → 0 ≤ contribution s w d) ∧
    (∀ d₁ d₂, 0 ≤ d₁ → d₁ ≤ d₂ → contribution s w d₂ ≤ contribution s w d₁) ∧
    (0 < w → ∀ d₁ d₂, 0 ≤ d₁ → d₁ < d₂ →
      contribution s w d₂ < contribution s w d₁) ∧
    contribution s w 0 = w ∧
    (w = 0 → (∀ d, contribution s w d = 0) ∧ kernelThreshold s w = 0) := by
  refine ⟨fun d _ => mul_nonneg hw (Real.exp_pos _).le, ?_, ?_, ?_, ?_⟩
  · intro d₁ d₂ h1 h12
    have hq : (d₁ / s) ^ 2 ≤ (d₂ / s) ^ 2 :=
      pow_le_pow_left₀ (div_nonneg h1 hs.le) ((div_le_div_iff_of_pos_right hs).mpr h12) 2
    exact mul_le_mul_of_nonneg_left (Real.exp_le_exp.mpr (neg_le_neg hq)) hw
  · intro hw' d₁ d₂ h1 h12
    have hq : (d₁ / s) ^ 2 < (d₂ / s) ^ 2 :=
      pow_lt_pow_left₀ ((div_lt_div_iff_of_pos_right hs).mpr h12) (div_nonneg h1 hs.le)
        two_ne_zero
    exact mul_lt_mul_of_pos_left (Real.exp_lt_exp.mpr (neg_lt_neg hq)) hw'
  · simp [contribution]
  · intro h
    subst h
    exact ⟨fun d => by simp [contribution], by simp [kernelThreshold]⟩

/-- C2 witness: the amended kernel properties evaluated at scale 1 and
weight 1, at the concrete distances 0, 1 and 2. -/
theorem contribution_kernel_properties_witness :
    (0:ℝ) < 1 ∧ (0:ℝ) ≤ 1 ∧ 0 ≤ contribution 1 1 2 ∧
    contribution 1 1 2 ≤ contribution 1 1 1 ∧
    contribution 1 1 2 < contribution 1 1 1 ∧ contribution 1 1 0 = 1 :=
  ⟨by norm_num, by norm_num,
    (contribution_kernel_properties 1 1 one_pos zero_le_one).1 2 (by norm_num),
    (contribution_kernel_properties 1 1 one_pos zero_le_one).2.1 1 2
      (by norm_num) (by norm_num),
    (contribution_kernel_properties 1 1 one_pos zero_le_one).2.2.1 one_pos 1 2
      (by norm_num) (by norm_num),
    (contribution_kernel_properties 1 1 one_pos zero_le_one).2.2.2.1⟩

/-- C4: for every city bounding box and every positive grid step, the number
of grid steps along each axis equals the floor of the axis length in
kilometers divided by the step, plus one; since the great-circle axis lengths
are non-negative, each axis has at least one point even when the step exceeds
the axis extent. -/
theorem gridSteps_floor_plus_one (b : BBox) (step : ℝ) (hstep : 0 < step) :
    longNGrid b step = ⌊longitudeRangeKm b / step⌋ + 1 ∧
    latNGrid b step = ⌊latitudeRangeKm b / step⌋ + 1 ∧
    1 ≤ longNGrid b step ∧ 1 ≤ latNGrid b step := by
  refine ⟨rfl, rfl, ?_, ?_⟩
  · have h0 : (0:ℤ) ≤ ⌊longitudeRangeKm b / step⌋ :=
      Int.floor_nonneg.mpr (div_nonneg (greatCircleKm_nonneg _ _) hstep.le)
    unfold longNGrid nGridSteps
    omega
  · have h0 : (0:ℤ) ≤ ⌊latitudeRangeKm b / step⌋ :=
      Int.floor_nonneg.mpr (div_nonneg (greatCircleKm_nonneg _ _) hstep.le)
    unfold latNGrid nGridSteps
    omega

/-- C4 witness: the step-count law evaluated at the unit bounding box with
step 1 km. -/
theorem gridSteps_floor_plus_one_witness :
    (0:ℝ) < 1 ∧
    (longNGrid ⟨0, 0, 1, 1⟩ 1 = ⌊longitudeRangeKm ⟨0, 0, 1, 1⟩ / 1⌋ + 1 ∧
     latNGrid ⟨0, 0, 1, 1⟩ 1 = ⌊latitudeRangeKm ⟨0, 0, 1, 1⟩ / 1⌋ + 1 ∧
     1 ≤ longNGrid ⟨0, 0, 1, 1⟩ 1 ∧ 1 ≤ latNGrid ⟨0, 0, 1, 1⟩ 1) :=
  ⟨by norm_num, gridSteps_floor_plus_one ⟨0, 0, 1, 1⟩ 1 (by norm_num)⟩

/-- C5: the bounding box spans are converted to kilometers by great-circle
distance evaluated independently along each axis (the longitude span along the
parallel at the minimum latitude, the latitude span along the meridian at the
minimum longitude), and these two lengths determine the per-axis step counts;
moreover the conversion is not a Euclidean degree distance: the same
180-degree longitude span measures strictly fewer kilometers along the
parallel at latitude 60 than along the equator. -/
theorem axis_lengths_great_circle :
    (∀ (b : BBox) (step : ℝ),
      longNGrid b step =
        nGridSteps (greatCircleKm (b.latMin, b.longMin) (b.latMin, b.longMax))
          step ∧
      latNGrid b step =
        nGridSteps (greatCircleKm (b.latMin, b.longMin) (b.latMax, b.longMin))
          step) ∧
    greatCircleKm (60, 0) (60, 180) < greatCircleKm (0, 0) (0, 180) := by
  constructor
  · exact fun b step => ⟨rfl, rfl⟩
  · have hpi := Real.pi_pos
    have h60 : degToRad 60 = Real.pi / 3 := by unfold degToRad; ring
    have h180 : degToRad 180 = Real.pi := by unfold degToRad; ring
    have h00 : degToRad 0 = 0 := by unfold degToRad; ring
    have hs3 : Real.sqrt 3 * Real.sqrt 3 = 3 := Real.mul_self_sqrt (by norm_num)
    have harc : Real.arccos (1 / 2) = Real.pi / 3 := by
      rw [← Real.cos_pi_div_three]
      exact Real.arccos_cos (by positivity) (by linarith)
    have hA : greatCircleKm (60, 0) (60, 180) = 6371.009 * (Real.pi / 3) := by
      show 6371.009 * Real.arccos (Real.sin (degToRad 60) * Real.sin (degToRad 60) +
        Real.cos (degToRad 60) * Real.cos (degToRad 60) *
          Real.cos (degToRad 180 - degToRad 0)) = 6371.009 * (Real.pi / 3)
      rw [h60, h180, h00, sub_zero, Real.sin_pi_div_three,
        Real.cos_pi_div_three, Real.cos_pi]
      rw [show Real.sqrt 3 / 2 * (Real.sqrt 3 / 2) + 1 / 2 * (1 / 2) * (-1) =
        (1:ℝ) / 2 by nlinarith [hs3]]
      rw [harc]
    have hB : greatCircleKm (0, 0) (0, 180) = 6371.009 * Real.pi := by
      show 6371.009 * Real.arccos (Real.sin (degToRad 0) * Real.sin (degToRad 0) +
        Real.cos (degToRad 0) * Real.cos (degToRad 0) *
          Real.cos (degToRad 180 - degToRad 0)) = 6371.009 * Real.pi
      rw [h00, h180, sub_zero, Real.sin_zero, Real.cos_zero, Real.cos_pi]
      rw [show (0:ℝ) * 0 + 1 * 1 * (-1) = -1 by ring, Real.arccos_neg_one]
    rw [hA, hB]
    nlinarith [hpi]

/-- The first-match behaviour of the zone scan: with every earlier zone row
failing the containment test and z passing it, the scan returns the identifier
of z, whatever comes after it. -/
theorem firstZone_append {α : Type} (pre post : List (Zone α)) (z : Zone α)
    (p : α) (hpre : ∀ zo ∈ pre, zo.covers p = false) (hz : z.covers p = true) :
    firstZone (pre ++ z :: post) p = some z.zid := by
  unfold firstZone
  induction pre with
  | nil =>
    rw [List.nil_append]
    have hfind : List.find? (fun zo => zo.covers p) (z :: post) = some z :=
      List.find?_cons_of_pos _ (by simpa using hz)
    rw [hfind]
    rfl
  | cons w ws ih =>
    have hw : w.covers p = false := hpre w (List.mem_cons_self w ws)
    rw [List.cons_append, List.find?_cons_of_neg _ (by simp [hw])]
    exact ih fun zo hm => hpre zo (List.mem_cons_of_mem _ hm)

/-- Every error that classifyPoint can produce carries the assertion message
of process_tools.py line 82. -/
theorem classifyPoint_error_msg {α : Type} (boundary : α → Bool)
    (zones : List (Zone α)) (p : α) (m : String)
    (h : classifyPoint boundary zones p = .error m) :
    m = "Point within city boundary was not assigned to any zone" := by
  unfold classifyPoint at h
  by_cases hb : boundary p
  · rw [if_pos hb] at h
    cases hfz : firstZone zones p with
    | some z => rw [hfz] at h; exact Except.noConfusion h
    | none =>
      rw [hfz] at h
      injection h with h
      exact h.symm
  · rw [if_neg hb] at h
    exact Except.noConfusion h

/-- If any lattice point fails classification, the whole grid construction
aborts with the assertion message. -/
theorem classifyGrid_error_of_mem {α : Type} (boundary : α → Bool)
    (zones : List (Zone α)) (points : List α) (p : α) (hmem : p ∈ points)
    (herr : classifyPoint boundary zones p =
      .error "Point within city boundary was not assigned to any zone") :
    classifyGrid boundary zones points =
      .error "Point within city boundary was not assigned to any zone" := by
  induction points with
  | nil => cases hmem
  | cons q rest ih =>
    unfold classifyGrid
    cases hq : classifyPoint boundary zones q with
    | error m =>
      rw [classifyPoint_error_msg boundary zones q m hq]
    | ok z =>
      rcases List.mem_cons.mp hmem with hpq | hrest
      · rw [hpq] at herr
        rw [herr] at hq
        exact Except.noConfusion hq
      · rw [ih hrest]

/-- C3: during grid construction, every lattice point inside the unioned city
boundary is assigned the zone identifier of the first zone polygon, in
enumeration order of the quartieri layer, that contains it (the scan over the
remaining zones stops at that first match, so zones after it cannot change the
result); and if no zone polygon contains an in-boundary point, the point
classification, and with it the whole grid construction, aborts with the fatal
assertion of process_tools.py line 82 instead of assigning no zone. -/
theorem grid_zone_first_match_or_abort :
    (∀ (α : Type) (boundary : α → Bool) (pre post : List (Zone α)) (z : Zone α)
      (p : α), boundary p = true → (∀ zo ∈ pre, zo.covers p = false) →
      z.covers p = true →
      classifyPoint boundary (pre ++ z :: post) p = .ok (some z.zid)) ∧
    (∀ (α : Type) (boundary : α → Bool) (zones : List (Zone α)) (p : α),
      boundary p = true → (∀ zo ∈ zones, zo.covers p = false) →
      classifyPoint boundary zones p =
        .error "Point within city boundary was not assigned to any zone") ∧
    (∀ (α : Type) (boundary : α → Bool) (zones : List (Zone α))
      (points : List α) (p : α), p ∈ points → boundary p = true →
      (∀ zo ∈ zones, zo.covers p = false) →
      classifyGrid boundary zones points =
        .error "Point within city boundary was not assigned to any zone") := by
  have habort : ∀ (α : Type) (boundary : α → Bool) (zones : List (Zone α))
      (p : α), boundary p = true → (∀ zo ∈ zones, zo.covers p = false) →
      classifyPoint boundary zones p =
        .error "Point within city boundary was not assigned to any zone" := by
    intro α boundary zones p hb hnone
    unfold classifyPoint
    rw [if_pos hb]
    have : firstZone zones p = none := by
      unfold firstZone
      rw [List.find?_eq_none.mpr (fun zo hm => by simp [hnone zo hm])]
      rfl
    rw [this]
  refine ⟨?_, habort, ?_⟩
  · intro α boundary pre post z p hb hpre hz
    unfold classifyPoint
    rw [if_pos hb, firstZone_append pre post z p hpre hz]
  · intro α boundary zones points p hmem hb hnone
    exact classifyGrid_error_of_mem boundary zones points p hmem
      (habort α boundary zones p hb hnone)

/-- C3 witness: a three-point scenario on natural-number points.  A point at 1
inside the boundary is assigned zone 7, the id of the first covering zone, with
a non-covering zone before it and an always-covering zone after it; a point at
0 inside the boundary with no covering zone aborts the classification and the
grid construction. -/
theorem grid_zone_first_match_or_abort_witness :
    ((0:ℕ) ≤ 1) = True ∧
    classifyPoint (fun n => decide (n ≤ 1))
      ([⟨fun n => decide (n = 5), 10⟩] ++
        (⟨fun n => decide (n ≤ 3), 7⟩ : Zone ℕ) :: [⟨fun _ => true, 99⟩]) 1 =
      .ok (some 7) ∧
    classifyPoint (fun n => decide (n ≤ 1)) [⟨fun n => decide (n = 5), 10⟩]
      (0 : ℕ) =
      .error "Point within city boundary was not assigned to any zone" ∧
    classifyGrid (fun n => decide (n ≤ 1)) [⟨fun n => decide (n = 5), 10⟩]
      [(0 : ℕ)] =
      .error "Point within city boundary was not assigned to any zone" :=
  ⟨by decide,
    grid_zone_first_match_or_abort.1 ℕ (fun n => decide (n ≤ 1))
      [⟨fun n => decide (n = 5), 10⟩] [⟨fun _ => true, 99⟩]
      ⟨fun n => decide (n ≤ 3), 7⟩ 1 (by decide) (by decide) (by decide),
    grid_zone_first_match_or_abort.2.1 ℕ (fun n => decide (n ≤ 1))
      [⟨fun n => decide (n = 5), 10⟩] 0 (by decide) (by decide),
    grid_zone_first_match_or_abort.2.2 ℕ (fun n => decide (n ≤ 1))
      [⟨fun n => decide (n = 5), 10⟩] [0] 0 (by decide) (by decide) (by decide)⟩

/-- A successful lattice classification visits every point in order and pairs
it with its own classification result. -/
theorem classifyGrid_ok_spec {α : Type} (boundary : α → Bool)
    (zones : List (Zone α)) :
    ∀ (points : List α) (res : List (α × Option ℕ)),
      classifyGrid boundary zones points = .ok res →
      res.map Prod.fst = points ∧
      ∀ pr ∈ res, classifyPoint boundary zones pr.1 = .ok pr.2 := by
  intro points
  induction points with
  | nil =>
    intro res h
    unfold classifyGrid at h
    injection h with h
    subst h
    exact ⟨rfl, by intro pr hpr; cases hpr⟩
  | cons p rest ih =>
    intro res h
    unfold classifyGrid at h
    cases hp : classifyPoint boundary zones p with
    | error m => rw [hp] at h; exact Except.noConfusion h
    | ok z =>
      rw [hp] at h
      cases hrest : classifyGrid boundary zones rest with
      | error m => rw [hrest] at h; exact Except.noConfusion h
      | ok tl =>
        rw [hrest] at h
        injection h with h
        subst h
        obtain ⟨hmap, hall⟩ := ih tl hrest
        refine ⟨by simpa using hmap, ?_⟩
        intro pr hpr
        rcases List.mem_cons.mp hpr with hpr | hpr
        · rw [hpr]
          exact hp
        · exact hall pr hpr

/-- A point outside the boundary is classified as having no zone, and the
classification does not depend on the zone list: the zone scan is skipped. -/
theorem classifyPoint_outside {α : Type} (boundary : α → Bool)
    (zones : List (Zone α)) (p : α) (hb : boundary p = false) :
    classifyPoint boundary zones p = .ok none := by
  unfold classifyPoint
  rw [if_neg (by simp [hb])]

/-- C8: after grid construction two views exist: fullGrid holds every
Cartesian-product lattice point with its classification, and grid is exactly
the sublist of in-boundary points; every lattice point outside the boundary
carries the no-zone marker (none), and its classification is independent of
the zone list, since the zone scan is skipped for it. -/
theorem grid_views_full_and_filtered :
    (∀ (α : Type) (boundary : α → Bool) (zones : List (Zone α))
      (points : List α) (v : GridViews α),
      makeGridViews boundary zones points = .ok v →
      v.fullGrid.map Prod.fst = points ∧
      v.grid = v.fullGrid.filter (fun pr => boundary pr.1) ∧
      (∀ pr ∈ v.fullGrid, boundary pr.1 = false → pr.2 = none) ∧
      (∀ pr ∈ v.grid, boundary pr.1 = true)) ∧
    (∀ (α : Type) (boundary : α → Bool) (zonesA zonesB : List (Zone α))
      (p : α), boundary p = false →
      classifyPoint boundary zonesA p = classifyPoint boundary zonesB p ∧
      classifyPoint boundary zonesA p = .ok none) := by
  constructor
  · intro α boundary zones points v h
    unfold makeGridViews at h
    cases hcg : classifyGrid boundary zones points with
    | error m => rw [hcg] at h; exact Except.noConfusion h
    | ok res =>
      rw [hcg] at h
      injection h with h
      subst h
      obtain ⟨hmap, hall⟩ := classifyGrid_ok_spec boundary zones points res hcg
      refine ⟨hmap, rfl, ?_, ?_⟩
      · intro pr hpr hb
        have := hall pr hpr
        rw [classifyPoint_outside boundary zones pr.1 hb] at this
        injection this with this
        exact this.symm
      · intro pr hpr
        exact (List.mem_filter.mp hpr).2
  · intro α boundary zonesA zonesB p hb
    rw [classifyPoint_outside boundary zonesA p hb,
      classifyPoint_outside boundary zonesB p hb]
    exact ⟨rfl, rfl⟩

/-- C8 witness: a two-point lattice on natural numbers where only the point 0
lies inside the boundary; the full view keeps both points, the filtered view
keeps only point 0, and the outside point 1 carries the no-zone marker under
any zone list. -/
theorem grid_views_full_and_filtered_witness :
    (GridViews.fullGrid
        { fullGrid := [((0:ℕ), some 3), (1, none)],
          grid := [((0:ℕ), some 3)] }).map Prod.fst = [0, 1] ∧
    makeGridViews (fun n => decide (n = 0)) [⟨fun n => decide (n = 0), 3⟩]
      [(0:ℕ), 1] =
      .ok { fullGrid := [((0:ℕ), some 3), (1, none)],
            grid := [((0:ℕ), some 3)] } ∧
    classifyPoint (fun n => decide (n = 0))
      ([] : List (Zone ℕ)) 1 =
      classifyPoint (fun n => decide (n = 0)) [⟨fun n => decide (n = 0), 3⟩] 1 ∧
    classifyPoint (fun n => decide (n = 0)) ([] : List (Zone ℕ)) 1 = .ok none := by
  have hmk : makeGridViews (fun n => decide (n = 0))
      [⟨fun n => decide (n = 0), 3⟩] [(0:ℕ), 1] =
      .ok { fullGrid := [((0:ℕ), some 3), (1, none)],
            grid := [((0:ℕ), some 3)] } := by rfl
  have h := (grid_views_full_and_filtered.1 ℕ (fun n => decide (n = 0))
    [⟨fun n => decide (n = 0), 3⟩] [(0:ℕ), 1]
    { fullGrid := [((0:ℕ), some 3), (1, none)], grid := [((0:ℕ), some 3)] } hmk)
  have h2 := grid_views_full_and_filtered.2 ℕ (fun n => decide (n = 0))
    ([] : List (Zone ℕ)) [⟨fun n => decide (n = 0), 3⟩] 1 (by decide)
  exact ⟨h.1, hmk, h2.1, h2.2⟩

/-- With a cache that only holds thresholds computed from the profile of its
own route type, every unit built by the transport loop carries the thresholds
computed from its own (scale, ageDiffusion) profile. -/
theorem loadTransportLoop_thresholds {Th : Type}
    (computeT : ℚ → List (AgeGroup × ℚ) → Th) (r : ℚ)
    (rows : List TransportRow) :
    ∀ (cache : ℕ → Option Th),
      (∀ rt t, cache rt = some t →
        t = computeT (transportScale r rt) transportDiffusion) →
      ∀ u ∈ (loadTransportLoop computeT r rows cache).1,
        u.thresholds = computeT u.scale u.ageDiffusion := by
  induction rows with
  | nil =>
    intro cache hinv u hu
    simp [loadTransportLoop] at hu
  | cons row rest ih =>
    intro cache hinv u hu
    cases hc : cache row.routeType with
    | some t =>
      simp only [loadTransportLoop, hc] at hu
      rcases List.mem_cons.mp hu with hu | hu
      · subst hu
        exact hinv row.routeType t hc
      · exact ih cache hinv u hu
    | none =>
      simp only [loadTransportLoop, hc] at hu
      rcases List.mem_cons.mp hu with hu | hu
      · subst hu
        rfl
      · refine ih _ ?_ u hu
        intro rt t hsome
        by_cases hrt : rt = row.routeType
        · rw [if_pos hrt] at hsome
          injection hsome with hsome
          rw [← hsome, hrt]
        · rw [if_neg hrt] at hsome
          exact hinv rt t hsome

/-- The computation log of the transport loop holds no route type twice, and
only route types whose cache entry was still empty. -/
theorem loadTransportLoop_log_nodup {Th : Type}
    (computeT : ℚ → List (AgeGroup × ℚ) → Th) (r : ℚ)
    (rows : List TransportRow) :
    ∀ (cache : ℕ → Option Th),
      ((loadTransportLoop computeT r rows cache).2.map Prod.fst).Nodup ∧
      ∀ e ∈ (loadTransportLoop computeT r rows cache).2, cache e.1 = none := by
  induction rows with
  | nil =>
    intro cache
    simp [loadTransportLoop]
  | cons row rest ih =>
    intro cache
    cases hc : cache row.routeType with
    | some t =>
      simp only [loadTransportLoop, hc]
      exact ih cache
    | none =>
      simp only [loadTransportLoop, hc, List.map_cons, List.nodup_cons]
      obtain ⟨hnodup, hpend⟩ :=
        ih (fun rt => if rt = row.routeType then
          some (computeT (transportScale r row.routeType) transportDiffusion)
          else cache rt)
      refine ⟨⟨?_, hnodup⟩, ?_⟩
      · intro hmem
        obtain ⟨e, hemem, hefst⟩ := List.mem_map.mp hmem
        have := hpend e hemem
        rw [hefst] at this
        rw [if_pos rfl] at this
        exact Option.noConfusion this
      · intro e hemem
        rcases List.mem_cons.mp hemem with he | he
        · rw [he]
          exact hc
        · have := hpend e he
          by_cases hrt : e.1 = row.routeType
          · rw [if_pos hrt] at this
            exact Option.noConfusion this
          · rw [if_neg hrt] at this
            exact this

/-- A route type appears in the transport computation log exactly when it
appears among the rows and its cache entry was still empty. -/
theorem loadTransportLoop_log_mem {Th : Type}
    (computeT : ℚ → List (AgeGroup × ℚ) → Th) (r : ℚ)
    (rows : List TransportRow) :
    ∀ (cache : ℕ → Option Th) (rt : ℕ),
      rt ∈ (loadTransportLoop computeT r rows cache).2.map Prod.fst ↔
      (rt ∈ rows.map TransportRow.routeType ∧ cache rt = none) := by
  induction rows with
  | nil =>
    intro cache rt
    simp [loadTransportLoop]
  | cons row rest ih =>
    intro cache rt
    cases hc : cache row.routeType with
    | some t =>
      simp only [loadTransportLoop, hc, List.map_cons, List.mem_cons]
      rw [ih cache rt]
      constructor
      · exact fun h => ⟨Or.inr h.1, h.2⟩
      · rintro ⟨hmem | hmem, hnone⟩
        · rw [hmem] at hnone
          rw [hnone] at hc
          exact Option.noConfusion hc
        · exact ⟨hmem, hnone⟩
    | none =>
      simp only [loadTransportLoop, hc, List.map_cons, List.mem_cons]
      rw [ih _ rt]
      constructor
      · rintro (h | ⟨hmem, hnone⟩)
        · exact ⟨Or.inl h, by rw [h]; exact hc⟩
        · by_cases hrt : rt = row.routeType
          · rw [if_pos hrt] at hnone
            exact Option.noConfusion hnone
          · rw [if_neg hrt] at hnone
            exact ⟨Or.inr hmem, hnone⟩
      · rintro ⟨hmem | hmem, hnone⟩
        · exact Or.inl hmem
        · by_cases hrt : rt = row.routeType
          · exact Or.inl hrt
          · exact Or.inr ⟨hmem, by rw [if_neg hrt]; exact hnone⟩

/-- Every entry of the transport computation log carries the profile of its
own route type. -/
theorem loadTransportLoop_log_profile {Th : Type}
    (computeT : ℚ → List (AgeGroup × ℚ) → Th) (r : ℚ)
    (rows : List TransportRow) :
    ∀ (cache : ℕ → Option Th),
      ∀ e ∈ (loadTransportLoop computeT r rows cache).2,
        e.2 = (transportScale r e.1, transportDiffusion) := by
  induction rows with
  | nil =>
    intro cache e he
    simp [loadTransportLoop] at he
  | cons row rest ih =>
    intro cache e he
    cases hc : cache row.routeType with
    | some t =>
      simp only [loadTransportLoop, hc] at he
      exact ih cache e he
    | none =>
      simp only [loadTransportLoop, hc] at he
      rcases List.mem_cons.mp he with he | he
      · rw [he]
      · exact ih _ e he

/-- A pharmacy loop started with a filled cache performs no computation. -/
theorem loadPharmacyLoop_some {Th : Type}
    (computeT : ℚ → List (AgeGroup × ℚ) → Th) (r : ℚ)
    (names : List String) :
    ∀ (t : Th), (loadPharmacyLoop computeT r names (some t)).2 = [] := by
  induction names with
  | nil => intro t; simp [loadPharmacyLoop]
  | cons n rest ih =>
    intro t
    simp only [loadPharmacyLoop]
    exact ih t

/-- Every unit built by the pharmacy loop carries the thresholds computed
from the shared pharmacy profile, provided the cache does. -/
theorem loadPharmacyLoop_thresholds {Th : Type}
    (computeT : ℚ → List (AgeGroup × ℚ) → Th) (r : ℚ)
    (names : List String) :
    ∀ (cached : Option Th),
      (∀ t, cached = some t → t = computeT r pharmacyDiffusion) →
      ∀ u ∈ (loadPharmacyLoop computeT r names cached).1,
        u.thresholds = computeT r pharmacyDiffusion := by
  induction names with
  | nil =>
    intro cached hinv u hu
    simp [loadPharmacyLoop] at hu
  | cons n rest ih =>
    intro cached hinv u hu
    cases hc : cached with
    | some t =>
      subst hc
      simp only [loadPharmacyLoop] at hu
      rcases List.mem_cons.mp hu with hu | hu
      · rw [hu]
        exact hinv t rfl
      · exact ih (some t) hinv u hu
    | none =>
      subst hc
      simp only [loadPharmacyLoop] at hu
      rcases List.mem_cons.mp hu with hu | hu
      · rw [hu]
      · exact ih (some (computeT r pharmacyDiffusion)) (fun t ht => by
          injection ht with ht
          exact ht.symm) u hu

/-- The pharmacy loop started with an empty cache computes at most once, and
only the shared profile. -/
theorem loadPharmacyLoop_log {Th : Type}
    (computeT : ℚ → List (AgeGroup × ℚ) → Th) (r : ℚ)
    (names : List String) :
    (loadPharmacyLoop computeT r names none).2.length ≤ 1 ∧
    ∀ e ∈ (loadPharmacyLoop computeT r names none).2,
      e = (r, pharmacyDiffusion) := by
  cases names with
  | nil => simp [loadPharmacyLoop]
  | cons n rest =>
    simp only [loadPharmacyLoop]
    rw [loadPharmacyLoop_some computeT r rest]
    simp

/-- C6 (amended): threshold computation is memoized per cache group, which is
the route type for transport stops (a single group for pharmacies), not per
distinct (scale, ageDiffusion) profile: within one load, each route type's
threshold is computed exactly once (the computed route types are duplicate
free and are exactly the distinct route types present among the rows), each
computation uses that group's own (scale, ageDiffusion) profile, and every
built unit carries the thresholds computed from its own scale and ageDiffusion
(so a cached threshold is never reused by a unit whose scale or weights differ
from the profile it was computed for); two distinct groups sharing a profile
(tram and bus stops) each perform their own computation. -/
theorem threshold_cache_per_group :
    (∀ (Th : Type) (computeT : ℚ → List (AgeGroup × ℚ) → Th) (r : ℚ)
      (rows : List TransportRow)
      (out : List (TransportUnit Th) × List (ℕ × KernelProfile)),
      loadTransport computeT r rows = .ok out →
      (∀ u ∈ out.1, u.thresholds = computeT u.scale u.ageDiffusion) ∧
      (out.2.map Prod.fst).Nodup ∧
      (∀ e ∈ out.2, e.2 = (transportScale r e.1, transportDiffusion)) ∧
      (∀ rt, rt ∈ out.2.map Prod.fst ↔
        rt ∈ rows.map TransportRow.routeType)) ∧
    (∀ (Th : Type) (computeT : ℚ → List (AgeGroup × ℚ) → Th) (r : ℚ)
      (names : List String)
      (out : List (PharmacyUnit Th) × List KernelProfile),
      loadPharmacy computeT r names = .ok out →
      (∀ u ∈ out.1, u.thresholds = computeT r pharmacyDiffusion) ∧
      out.2.length ≤ 1 ∧
      (∀ e ∈ out.2, e = (r, pharmacyDiffusion))) := by
  constructor
  · intro Th computeT r rows out h
    unfold loadTransport at h
    by_cases hr : r = 0
    · rw [if_pos hr] at h
      exact Except.noConfusion h
    · rw [if_neg hr] at h
      by_cases hall : rows.all (fun row => gtfsRouteTypes.contains row.routeType)
      · rw [if_pos hall] at h
        by_cases hsc : rows.all (fun row =>
            decide (0 < transportScale r row.routeType)) = true
        · rw [if_pos hsc] at h
          injection h with h
          subst h
          refine ⟨loadTransportLoop_thresholds computeT r rows _
            (fun rt t ht => Option.noConfusion ht), ?_, ?_, ?_⟩
          · exact (loadTransportLoop_log_nodup computeT r rows _).1
          · exact loadTransportLoop_log_profile computeT r rows _
          · intro rt
            rw [loadTransportLoop_log_mem computeT r rows _ rt]
            simp
        · rw [if_neg hsc] at h
          exact Except.noConfusion h
      · rw [if_neg hall] at h
        exact Except.noConfusion h
  · intro Th computeT r names out h
    unfold loadPharmacy at h
    by_cases hr : r = 0
    · rw [if_pos hr] at h
      exact Except.noConfusion h
    · rw [if_neg hr] at h
      by_cases hsc : names.all (fun _ => decide (0 < r)) = true
      · rw [if_pos hsc] at h
        injection h with h
        subst h
        refine ⟨loadPharmacyLoop_thresholds computeT r names none
          (fun t ht => Option.noConfusion ht), ?_, ?_⟩
        · exact (loadPharmacyLoop_log computeT r names).1
        · exact (loadPharmacyLoop_log computeT r names).2
      · rw [if_neg hsc] at h
        exact Except.noConfusion h

/-- A concrete threshold computation for witnesses: the thresholds are
represented by the scale they were computed from. -/
def idScaleT (s : ℚ) (_ : List (AgeGroup × ℚ)) : ℚ := s

/-- A tram stop followed by a bus stop: route types 0 and 3, which share the
same scale (the mean radius) and the same age diffusion. -/
def transportWitnessRows : List TransportRow :=
  [⟨"s1", "r1", 0⟩, ⟨"s2", "r2", 3⟩]

/-- The transport load outcome on the witness rows. -/
def transportWitnessOut :
    List (TransportUnit ℚ) × List (ℕ × KernelProfile) :=
  loadTransportLoop idScaleT 1 transportWitnessRows (fun _ => none)

/-- The pharmacy load outcome on two pharmacies with mean radius 1. -/
def pharmacyWitnessOut : List (PharmacyUnit ℚ) × List KernelProfile :=
  loadPharmacyLoop idScaleT 1 ["a", "b"] none

/-- C6 counterexample: loading one tram stop (route type 0) and one bus stop
(route type 3) with mean radius 1 performs two threshold computations for the
single distinct (scale, ageDiffusion) profile (1, transportDiffusion), because
the cache of factories.py line 202 is keyed by route type, not by profile;
this refutes the claim that the threshold is computed exactly once per
distinct (scale, ageDiffusion-profile) group. -/
theorem transport_threshold_computed_twice_same_profile :
    (loadTransport idScaleT 1 transportWitnessRows).map
        (fun out => out.2.map Prod.snd) =
      .ok [((1 : ℚ), transportDiffusion), ((1 : ℚ), transportDiffusion)] ∧
    (loadTransport idScaleT 1 transportWitnessRows).map
        (fun out => (out.2.map Prod.snd).count ((1 : ℚ), transportDiffusion)) =
      .ok 2 := by
  constructor
  · rfl
  · rfl

/-- C6 witness: the per-group caching law applied to the concrete tram-and-bus
load and to a two-pharmacy load. -/
theorem threshold_cache_per_group_witness :
    loadTransport idScaleT 1 transportWitnessRows = .ok transportWitnessOut ∧
    (∀ u ∈ transportWitnessOut.1,
      u.thresholds = idScaleT u.scale u.ageDiffusion) ∧
    (transportWitnessOut.2.map Prod.fst).Nodup ∧
    ((0 : ℕ) ∈ transportWitnessOut.2.map Prod.fst ↔
      (0 : ℕ) ∈ transportWitnessRows.map TransportRow.routeType) ∧
    loadPharmacy idScaleT 1 ["a", "b"] = .ok pharmacyWitnessOut ∧
    pharmacyWitnessOut.2.length ≤ 1 := by
  have hok : loadTransport idScaleT 1 transportWitnessRows =
      .ok transportWitnessOut := by rfl
  have hpok : loadPharmacy idScaleT 1 ["a", "b"] = .ok pharmacyWitnessOut := by
    rfl
  have h1 := threshold_cache_per_group.1 ℚ idScaleT 1 transportWitnessRows
    transportWitnessOut hok
  have h2 := threshold_cache_per_group.2 ℚ idScaleT 1 ["a", "b"]
    pharmacyWitnessOut hpok
  exact ⟨hok, h1.1, h1.2.1, h1.2.2.2 0, hpok, h2.2.1⟩

/-- The floor of a quotient of a small positive length by a negative step is
minus one. -/
theorem floor_div_neg_small (l s : ℝ) (hs : s < 0) (hl : 0 < l)
    (hls : l < -s) : ⌊l / s⌋ = -1 := by
  rw [Int.floor_eq_iff]
  constructor
  · push_cast
    rw [le_div_iff_of_neg hs]
    nlinarith
  · push_cast
    have := div_neg_of_pos_of_neg hl hs
    linarith

/-- With a negative grid step larger in magnitude than both axis extents, the
step counts both evaluate to zero, np.linspace silently returns empty axes and
grid construction succeeds with an empty lattice: no configuration error is
signaled. -/
theorem gridMaker_neg_step_empty (boundary : ℚ × ℚ → Bool)
    (zones : List (Zone (ℚ × ℚ))) (longRange latRange : ℚ × ℚ)
    (longKm latKm step : ℝ) (hs : step < 0) (hlong : 0 < longKm)
    (hlongs : longKm < -step) (hlat : 0 < latKm) (hlats : latKm < -step) :
    gridMaker boundary zones longRange latRange longKm latKm step =
      .ok { fullGrid := [], grid := [] } := by
  have h1 : nGridSteps longKm step = 0 := by
    unfold nGridSteps
    rw [floor_div_neg_small longKm step hs hlong hlongs]
    decide
  have h2 : nGridSteps latKm step = 0 := by
    unfold nGridSteps
    rw [floor_div_neg_small latKm step hs hlat hlats]
    decide
  unfold gridMaker
  rw [h1, h2]
  norm_num [makeGridViews, classifyGrid, meshFlatten, linspace]
  rfl

/-- C9 counterexample: GridMaker performs no validation of the grid step.
With the non-positive step -0.1 km and axis extents of 0.05 km, construction
does not signal a configuration error: it proceeds and silently returns an
empty grid (the step counts evaluate to 0 and np.linspace yields empty axes),
refuting the claim that a non-positive grid step is fatal at construction. -/
theorem negative_step_grid_builds_empty :
    gridMaker (fun _ => false) [] (0, 1) (0, 1) (1 / 20) (1 / 20) (-(1 / 10)) =
      .ok { fullGrid := [], grid := [] } :=
  gridMaker_neg_step_empty (fun _ => false) [] (0, 1) (0, 1) (1 / 20) (1 / 20)
    (-(1 / 10)) (by norm_num) (by norm_num) (by norm_num) (by norm_num)
    (by norm_num)

/-- The transport route-type scale is positive for a positive mean radius. -/
theorem transportScale_pos (r : ℚ) (hr : 0 < r) (rt : ℕ) :
    0 < transportScale r rt := by
  unfold transportScale
  split_ifs <;> linarith

/-- The transport route-type scale is non-positive for a non-positive mean
radius. -/
theorem transportScale_nonpos (r : ℚ) (hr : r ≤ 0) (rt : ℕ) :
    transportScale r rt ≤ 0 := by
  unfold transportScale
  split_ifs <;> linarith

/-- With a positive mean radius and positive pupil counts, every transformed
school scale is positive. -/
theorem schoolScale_pos (r : ℝ) (rows : List SchoolRow) (hr : 0 < r)
    (hpos : ∀ row ∈ rows, 0 < row.pupils) :
    ∀ row ∈ rows, 0 < schoolScale r rows row.pupils := by
  intro row hrow
  have hne : rows ≠ [] := by
    intro h
    rw [h] at hrow
    exact absurd hrow (List.not_mem_nil row)
  have hS : 0 < (rows.map (fun row => Real.sqrt row.pupils)).sum := by
    refine List.sum_pos _ ?_ (fun h => hne (List.map_eq_nil_iff.mp h))
    intro x hx
    obtain ⟨row2, hrow2, hxeq⟩ := List.mem_map.mp hx
    rw [← hxeq]
    exact Real.sqrt_pos.mpr (by exact_mod_cast hpos row2 hrow2)
  have hn : (0 : ℝ) < rows.length := by
    exact_mod_cast List.length_pos.mpr hne
  unfold schoolScale
  exact mul_pos (div_pos (Real.sqrt_pos.mpr (by exact_mod_cast hpos row hrow))
    (div_pos hS hn)) hr

/-- With a non-positive mean radius, every transformed school scale is
non-positive: the square-root factor is non-negative. -/
theorem schoolScale_nonpos (r : ℝ) (rows : List SchoolRow) (hr : r ≤ 0)
    (p : ℚ) : schoolScale r rows p ≤ 0 := by
  have h1 : 0 ≤ Real.sqrt p /
      ((rows.map (fun row => Real.sqrt row.pupils)).sum /
        (rows.length : ℝ)) := by
    refine div_nonneg (Real.sqrt_nonneg _) (div_nonneg ?_ (Nat.cast_nonneg _))
    refine List.sum_nonneg ?_
    intro x hx
    obtain ⟨row, hrow, hxeq⟩ := List.mem_map.mp hx
    rw [← hxeq]
    exact Real.sqrt_nonneg _
  have h2 : 0 ≤ (Real.sqrt p /
      ((rows.map (fun row => Real.sqrt row.pupils)).sum /
        (rows.length : ℝ))) * (-r) := mul_nonneg h1 (neg_nonneg.mpr hr)
  unfold schoolScale
  nlinarith [h2]

/-- C9 (amended): ServiceUnit construction, modelled from the spec, rejects a
non-positive scale as a ConfigurationError; each factory load rejects a zero
(Python-falsy, hence also missing) mean radius immediately; a negative radius
passes the factory truthiness assert, but a nonempty load then still fails at
the spec-modelled ServiceUnit constructor rather than at the assert; only the
grid-step half of the claim fails: GridMaker performs no validation of the
grid step, and a negative step whose magnitude exceeds both axis extents
silently constructs an empty grid instead of signaling a configuration
error. -/
theorem configuration_checks :
    (∀ (s : ℝ) (d : List (AgeGroup × ℚ)), s ≤ 0 →
      mkServiceUnit s d = .error "ConfigurationError: non-positive scale") ∧
    (∀ rows : List SchoolRow, loadSchool 0 rows =
      .error "Please provide a reference radius for the mean school size") ∧
    (∀ rows : List LibraryRow, loadLibrary 0 rows =
      .error "Please provide a reference radius for the mean library size") ∧
    (∀ (Th : Type) (computeT : ℚ → List (AgeGroup × ℚ) → Th)
      (rows : List TransportRow), loadTransport computeT 0 rows =
      .error "Please provide a reference radius for stops") ∧
    (∀ (Th : Type) (computeT : ℚ → List (AgeGroup × ℚ) → Th)
      (names : List String), loadPharmacy computeT 0 names =
      .error "Please provide a reference radius for pharmacies") ∧
    (∀ (r : ℝ) (rows : List SchoolRow), r < 0 → rows ≠ [] →
      (∀ row ∈ rows, row.typ ∈ schoolCategories) →
      loadSchool r rows = .error "ConfigurationError: non-positive scale") ∧
    (∀ (Th : Type) (computeT : ℚ → List (AgeGroup × ℚ) → Th) (r : ℚ)
      (rows : List TransportRow), r < 0 → rows ≠ [] →
      (∀ row ∈ rows, row.routeType ∈ gtfsRouteTypes) →
      loadTransport computeT r rows =
        .error "ConfigurationError: non-positive scale") ∧
    (∀ (boundary : ℚ × ℚ → Bool) (zones : List (Zone (ℚ × ℚ)))
      (longRange latRange : ℚ × ℚ) (longKm latKm step : ℝ),
      step < 0 → 0 < longKm → longKm < -step → 0 < latKm → latKm < -step →
      gridMaker boundary zones longRange latRange longKm latKm step =
        .ok { fullGrid := [], grid := [] }) := by
  refine ⟨?_, ?_, ?_, ?_, ?_, ?_, ?_, ?_⟩
  · intro s d hs
    unfold mkServiceUnit
    rw [if_pos hs]
  · intro rows
    unfold loadSchool
    rw [if_pos rfl]
  · intro rows
    unfold loadLibrary
    rw [if_pos rfl]
  · intro Th computeT rows
    unfold loadTransport
    rw [if_pos rfl]
  · intro Th computeT names
    unfold loadPharmacy
    rw [if_pos rfl]
  · intro r rows hr hrows hall
    have hne : ¬ (r = 0) := fun h => absurd h (by
      intro h0
      rw [h0] at hr
      exact lt_irrefl 0 hr)
    have hcheck :
        rows.all (fun row => schoolCategories.contains row.typ) = true :=
      List.all_eq_true.mpr fun row hrow =>
        List.elem_eq_true_of_mem (hall row hrow)
    obtain ⟨row, hrow⟩ := List.exists_mem_of_ne_nil rows hrows
    have hguard : ¬ ∀ row ∈ rows, 0 < schoolScale r rows row.pupils := by
      intro hforall
      have hle := schoolScale_nonpos r rows hr.le row.pupils
      exact absurd (hforall row hrow) (not_lt.mpr hle)
    unfold loadSchool
    rw [if_neg hne, if_pos hcheck, if_neg hguard]
  · intro Th computeT r rows hr hrows hall
    have hne : ¬ (r = 0) := fun h => absurd h (by
      intro h0
      rw [h0] at hr
      exact lt_irrefl 0 hr)
    have hcheck :
        rows.all (fun row => gtfsRouteTypes.contains row.routeType) = true :=
      List.all_eq_true.mpr fun row hrow =>
        List.elem_eq_true_of_mem (hall row hrow)
    obtain ⟨row, hrow⟩ := List.exists_mem_of_ne_nil rows hrows
    have hguard : ¬ (rows.all (fun row =>
        decide (0 < transportScale r row.routeType)) = true) := by
      intro hforall
      have hgt := of_decide_eq_true (List.all_eq_true.mp hforall row hrow)
      exact absurd hgt
        (not_lt.mpr (transportScale_nonpos r hr.le row.routeType))
    unfold loadTransport
    rw [if_neg hne, if_pos hcheck, if_neg hguard]
  · exact fun boundary zones longRange latRange longKm latKm step h1 h2 h3 h4
      h5 => gridMaker_neg_step_empty boundary zones longRange latRange longKm
        latKm step h1 h2 h3 h4 h5

/-- C9 witness: the configuration-error behaviour evaluated at concrete
inputs: a unit with scale -1, each factory load at radius 0, a school load
and a transport load at the negative radius -1 (which pass the assert but
abort at the spec-modelled constructor), and a grid construction at step
-0.2 km on a box with axis extents 1/30 km. -/
theorem configuration_checks_witness :
    mkServiceUnit (-1) [] = .error "ConfigurationError: non-positive scale" ∧
    loadSchool 0 [] =
      .error "Please provide a reference radius for the mean school size" ∧
    loadLibrary 0 [] =
      .error "Please provide a reference radius for the mean library size" ∧
    loadTransport idScaleT 0 [] =
      .error "Please provide a reference radius for stops" ∧
    loadPharmacy idScaleT 0 [] =
      .error "Please provide a reference radius for pharmacies" ∧
    loadSchool (-1) [⟨"a", "SCUOLA PRIMARIA", 1⟩] =
      .error "ConfigurationError: non-positive scale" ∧
    loadTransport idScaleT (-1) [⟨"s", "r", 0⟩] =
      .error "ConfigurationError: non-positive scale" ∧
    gridMaker (fun _ => true) [] (0, 2) (0, 2) (1 / 30) (1 / 30) (-(1 / 5)) =
      .ok { fullGrid := [], grid := [] } :=
  ⟨configuration_checks.1 (-1) [] (by norm_num),
    configuration_checks.2.1 [],
    configuration_checks.2.2.1 [],
    configuration_checks.2.2.2.1 ℚ idScaleT [],
    configuration_checks.2.2.2.2.1 ℚ idScaleT [],
    configuration_checks.2.2.2.2.2.1 (-1) [⟨"a", "SCUOLA PRIMARIA", 1⟩]
      (by norm_num) (by simp) (by decide),
    configuration_checks.2.2.2.2.2.2.1 ℚ idScaleT (-1) [⟨"s", "r", 0⟩]
      (by norm_num) (by simp) (by decide),
    configuration_checks.2.2.2.2.2.2.2 (fun _ => true) [] (0, 2) (0, 2)
      (1 / 30) (1 / 30) (-(1 / 5)) (by norm_num) (by norm_num) (by norm_num)
      (by norm_num) (by norm_num)⟩

/-- C7: if any ingested record's type or category value has no entry in the
known category-to-age-group mapping for that service type, loading fails for
the entire service type and no unit list, partial or otherwise, is returned
(the membership assert runs before any unit is built); when every category is
recognized, the load never fails with the unrecognized-category error, and
under the remaining construction preconditions (a positive mean radius, and
for schools positive pupil counts, so that the spec-modelled ServiceUnit
constructor accepts every scale) it completes successfully.  Stated for the
school, library and transport-stop factories. -/
theorem unrecognized_category_fails_load :
    (∀ (r : ℝ) (rows : List SchoolRow),
      (∃ row ∈ rows, row.typ ∉ schoolCategories) →
      ∀ us, loadSchool r rows ≠ .ok us) ∧
    (∀ (r : ℝ) (rows : List SchoolRow),
      (∀ row ∈ rows, row.typ ∈ schoolCategories) →
      loadSchool r rows ≠ .error "Unrecognized types in input") ∧
    (∀ (r : ℝ) (rows : List SchoolRow), 0 < r →
      (∀ row ∈ rows, 0 < row.pupils) →
      (∀ row ∈ rows, row.typ ∈ schoolCategories) →
      (loadSchool r rows).isOk = true) ∧
    (∀ (r : ℝ) (rows : List LibraryRow),
      (∃ row ∈ rows, row.typ ∉ libraryCategories) →
      ∀ us, loadLibrary r rows ≠ .ok us) ∧
    (∀ (r : ℝ) (rows : List LibraryRow), r ≠ 0 →
      (∀ row ∈ rows, row.typ ∈ libraryCategories) →
      (loadLibrary r rows).isOk = true) ∧
    (∀ (Th : Type) (computeT : ℚ → List (AgeGroup × ℚ) → Th) (r : ℚ)
      (rows : List TransportRow),
      (∃ row ∈ rows, row.routeType ∉ gtfsRouteTypes) →
      ∀ out, loadTransport computeT r rows ≠ .ok out) ∧
    (∀ (Th : Type) (computeT : ℚ → List (AgeGroup × ℚ) → Th) (r : ℚ)
      (rows : List TransportRow),
      (∀ row ∈ rows, row.routeType ∈ gtfsRouteTypes) →
      loadTransport computeT r rows ≠ .error "Unexpected route type") ∧
    (∀ (Th : Type) (computeT : ℚ → List (AgeGroup × ℚ) → Th) (r : ℚ)
      (rows : List TransportRow), 0 < r →
      (∀ row ∈ rows, row.routeType ∈ gtfsRouteTypes) →
      (loadTransport computeT r rows).isOk = true) := by
  refine ⟨?_, ?_, ?_, ?_, ?_, ?_, ?_, ?_⟩
  · rintro r rows ⟨row, hrow, hbad⟩ us h
    unfold loadSchool at h
    by_cases hr : r = 0
    · rw [if_pos hr] at h
      exact Except.noConfusion h
    · rw [if_neg hr] at h
      by_cases hall :
          rows.all (fun row => schoolCategories.contains row.typ) = true
      · exact hbad (by simpa using List.all_eq_true.mp hall row hrow)
      · rw [if_neg hall] at h
        exact Except.noConfusion h
  · intro r rows hall h
    unfold loadSchool at h
    by_cases hr : r = 0
    · rw [if_pos hr] at h
      injection h with h
      exact absurd h (by decide)
    · have hcheck :
          rows.all (fun row => schoolCategories.contains row.typ) = true :=
        List.all_eq_true.mpr fun row hrow =>
          List.elem_eq_true_of_mem (hall row hrow)
      rw [if_neg hr, if_pos hcheck] at h
      by_cases hsc : ∀ row ∈ rows, 0 < schoolScale r rows row.pupils
      · rw [if_pos hsc] at h
        exact Except.noConfusion h
      · rw [if_neg hsc] at h
        injection h with h
        exact absurd h (by decide)
  · intro r rows hr hpupils hall
    have hcheck :
        rows.all (fun row => schoolCategories.contains row.typ) = true :=
      List.all_eq_true.mpr fun row hrow =>
        List.elem_eq_true_of_mem (hall row hrow)
    unfold loadSchool
    rw [if_neg (ne_of_gt hr), if_pos hcheck,
      if_pos (schoolScale_pos r rows hr hpupils)]
    rfl
  · rintro r rows ⟨row, hrow, hbad⟩ us h
    unfold loadLibrary at h
    by_cases hr : r = 0
    · rw [if_pos hr] at h
      exact Except.noConfusion h
    · rw [if_neg hr] at h
      by_cases hall :
          rows.all (fun row => libraryCategories.contains row.typ) = true
      · exact hbad (by simpa using List.all_eq_true.mp hall row hrow)
      · rw [if_neg hall] at h
        exact Except.noConfusion h
  · intro r rows hr hall
    have hcheck :
        rows.all (fun row => libraryCategories.contains row.typ) = true :=
      List.all_eq_true.mpr fun row hrow =>
        List.elem_eq_true_of_mem (hall row hrow)
    unfold loadLibrary
    rw [if_neg hr, if_pos hcheck]
    rfl
  · rintro Th computeT r rows ⟨row, hrow, hbad⟩ out h
    unfold loadTransport at h
    by_cases hr : r = 0
    · rw [if_pos hr] at h
      exact Except.noConfusion h
    · rw [if_neg hr] at h
      by_cases hall :
          rows.all (fun row => gtfsRouteTypes.contains row.routeType) = true
      · exact hbad (by simpa using List.all_eq_true.mp hall row hrow)
      · rw [if_neg hall] at h
        exact Except.noConfusion h
  · intro Th computeT r rows hall h
    unfold loadTransport at h
    by_cases hr : r = 0
    · rw [if_pos hr] at h
      injection h with h
      exact absurd h (by decide)
    · have hcheck :
          rows.all (fun row => gtfsRouteTypes.contains row.routeType) = true :=
        List.all_eq_true.mpr fun row hrow =>
          List.elem_eq_true_of_mem (hall row hrow)
      rw [if_neg hr, if_pos hcheck] at h
      by_cases hsc : rows.all (fun row =>
          decide (0 < transportScale r row.routeType)) = true
      · rw [if_pos hsc] at h
        exact Except.noConfusion h
      · rw [if_neg hsc] at h
        injection h with h
        exact absurd h (by decide)
  · intro Th computeT r rows hr hall
    have hcheck :
        rows.all (fun row => gtfsRouteTypes.contains row.routeType) = true :=
      List.all_eq_true.mpr fun row hrow =>
        List.elem_eq_true_of_mem (hall row hrow)
    have hsc : rows.all (fun row =>
        decide (0 < transportScale r row.routeType)) = true :=
      List.all_eq_true.mpr fun row _ =>
        decide_eq_true (transportScale_pos r hr row.routeType)
    unfold loadTransport
    rw [if_neg (ne_of_gt hr), if_pos hcheck, if_pos hsc]
    rfl

/-- C7 witness: a school row of unknown type "X" makes the load fail (it is
not the empty ok result, in particular), while a recognized primary-school
row at radius 1 with one pupil loads successfully and never with the
category error; likewise for a library of unknown type and for a transport
stop of unknown route type 7. -/
theorem unrecognized_category_fails_load_witness :
    loadSchool 1 [⟨"a", "X", 1⟩] ≠ .ok [] ∧
    loadSchool 1 [⟨"a", "SCUOLA PRIMARIA", 1⟩] ≠
      .error "Unrecognized types in input" ∧
    (loadSchool 1 [⟨"a", "SCUOLA PRIMARIA", 1⟩]).isOk = true ∧
    loadLibrary 1 [⟨"b", "X"⟩] ≠ .ok [] ∧
    (loadLibrary 1 [⟨"b", "Pubblica"⟩]).isOk = true ∧
    loadTransport idScaleT 1 [⟨"s", "r", 7⟩] ≠ .ok ([], []) ∧
    loadTransport idScaleT 1 [⟨"s", "r", 0⟩] ≠
      .error "Unexpected route type" ∧
    (loadTransport idScaleT 1 [⟨"s", "r", 0⟩]).isOk = true :=
  ⟨unrecognized_category_fails_load.1 1 [⟨"a", "X", 1⟩]
      ⟨⟨"a", "X", 1⟩, List.mem_cons_self _ _, by decide⟩ [],
    unrecognized_category_fails_load.2.1 1 [⟨"a", "SCUOLA PRIMARIA", 1⟩]
      (by decide),
    unrecognized_category_fails_load.2.2.1 1 [⟨"a", "SCUOLA PRIMARIA", 1⟩]
      (by norm_num) (by decide) (by decide),
    unrecognized_category_fails_load.2.2.2.1 1 [⟨"b", "X"⟩]
      ⟨⟨"b", "X"⟩, List.mem_cons_self _ _, by decide⟩ [],
    unrecognized_category_fails_load.2.2.2.2.1 1 [⟨"b", "Pubblica"⟩]
      (by norm_num) (by decide),
    unrecognized_category_fails_load.2.2.2.2.2.1 ℚ idScaleT 1 [⟨"s", "r", 7⟩]
      ⟨⟨"s", "r", 7⟩, List.mem_cons_self _ _, by decide⟩ ([], []),
    unrecognized_category_fails_load.2.2.2.2.2.2.1 ℚ idScaleT 1
      [⟨"s", "r", 0⟩] (by decide),
    unrecognized_category_fails_load.2.2.2.2.2.2.2 ℚ idScaleT 1
      [⟨"s", "r", 0⟩] (by norm_num) (by decide)⟩

/-- First-occurrence deduplication preserves membership. -/
theorem uniqueInOrder_mem (l : List String) (a : String) :
    a ∈ uniqueInOrder l ↔ a ∈ l := by
  have H : ∀ (n : ℕ) (l : List String), l.length ≤ n → ∀ a : String,
      (a ∈ uniqueInOrder l ↔ a ∈ l) := by
    intro n
    induction n with
    | zero =>
      intro l hl a
      rw [Nat.le_zero, List.length_eq_zero] at hl
      subst hl
      rw [uniqueInOrder]
    | succ n ih =>
      intro l hl a
      cases l with
      | nil => rw [uniqueInOrder]
      | cons x xs =>
        rw [uniqueInOrder, List.mem_cons, List.mem_cons,
          ih (xs.filter (fun y => decide (y ≠ x)))
            (le_trans (List.length_filter_le _ _)
              (Nat.le_of_succ_le_succ hl)) a]
        constructor
        · rintro (h | hmem)
          · exact Or.inl h
          · exact Or.inr (List.mem_of_mem_filter hmem)
        · rintro (h | hmem)
          · exact Or.inl h
          · by_cases hax : a = x
            · exact Or.inl hax
            · exact Or.inr (List.mem_filter.mpr ⟨hmem, by simp [hax]⟩)
  exact H l.length l le_rfl a

/-- First-occurrence deduplication yields a duplicate-free list. -/
theorem uniqueInOrder_nodup (l : List String) : (uniqueInOrder l).Nodup := by
  have H : ∀ (n : ℕ) (l : List String), l.length ≤ n →
      (uniqueInOrder l).Nodup := by
    intro n
    induction n with
    | zero =>
      intro l hl
      rw [Nat.le_zero, List.length_eq_zero] at hl
      subst hl
      rw [uniqueInOrder]
      exact List.nodup_nil
    | succ n ih =>
      intro l hl
      cases l with
      | nil =>
        rw [uniqueInOrder]
        exact List.nodup_nil
      | cons x xs =>
        rw [uniqueInOrder, List.nodup_cons]
        have hlen : (xs.filter (fun y => decide (y ≠ x))).length ≤ n :=
          le_trans (List.length_filter_le _ _) (Nat.le_of_succ_le_succ hl)
        refine ⟨?_, ih _ hlen⟩
        intro hmem
        have hx : x ∈ xs.filter (fun y => decide (y ≠ x)) :=
          (uniqueInOrder_mem _ x).mp hmem
        have := (List.mem_filter.mp hx).2
        simp at this
  exact H l.length l le_rfl

/-- Grouping a list by the distinct values of a key is a permutation of the
list: concatenating, over a duplicate-free list of keys covering every row,
the rows filtered to each key yields every row exactly once. -/
theorem flatMap_filter_perm {α : Type} (key : α → String) :
    ∀ (ts : List String) (rows : List α), ts.Nodup →
      (∀ row ∈ rows, key row ∈ ts) →
      (ts.flatMap
        (fun t => rows.filter (fun row => decide (key row = t)))).Perm rows := by
  intro ts
  induction ts with
  | nil =>
    intro rows _ hall
    cases rows with
    | nil => simp
    | cons r rs =>
      exact absurd (hall r (List.mem_cons_self r rs)) (List.not_mem_nil _)
  | cons t ts ih =>
    intro rows hnodup hall
    rw [List.flatMap_cons]
    have hflat : ts.flatMap
        (fun tq => rows.filter (fun row => decide (key row = tq))) =
        ts.flatMap (fun tq =>
          (rows.filter (fun row => !decide (key row = t))).filter
            (fun row => decide (key row = tq))) := by
      rw [List.flatMap_def, List.flatMap_def]
      congr 1
      apply List.map_congr_left
      intro tq htq
      have htne : t ≠ tq := fun h => (List.nodup_cons.mp hnodup).1 (h ▸ htq)
      rw [List.filter_filter]
      apply List.filter_congr
      intro row _
      by_cases h : key row = tq
      · have hnt : ¬ (key row = t) := fun ht => htne (ht.symm.trans h)
        simp [h, hnt, Ne.symm htne]
      · simp [h]
    have hperm2 : (ts.flatMap (fun tq =>
        (rows.filter (fun row => !decide (key row = t))).filter
          (fun row => decide (key row = tq)))).Perm
        (rows.filter (fun row => !decide (key row = t))) := by
      refine ih (rows.filter (fun row => !decide (key row = t)))
        (List.nodup_cons.mp hnodup).2 ?_
      intro row hrow
      have hmem := hall row (List.mem_of_mem_filter hrow)
      have hne : ¬ (key row = t) := by
        have := (List.mem_filter.mp hrow).2
        simpa using this
      rcases List.mem_cons.mp hmem with h | h
      · exact absurd h hne
      · exact h
    rw [hflat]
    exact (List.Perm.append_left _ hperm2).trans
      (List.filter_append_perm _ rows)

/-- C10 counterexample: the claim quantifies over every dataset with positive
pupil counts but leaves the sign of the given meanRadius unconstrained.  At
meanRadius = -1 on a one-school dataset with pupil count 1 the transformed
scale is negative, so the spec-modelled ServiceUnit constructor aborts the
load with a ConfigurationError: no unit is produced at all, hence the load
does not assign the claimed scales and the mean of the produced scales cannot
equal the given meanRadius; positivity of the radius must be assumed. -/
theorem school_scale_negative_radius :
    loadSchool (-1) [⟨"a", "SCUOLA PRIMARIA", 1⟩] =
      .error "ConfigurationError: non-positive scale" := by
  unfold loadSchool
  rw [if_neg (by norm_num : ¬ ((-1 : ℝ) = 0)), if_pos (by decide)]
  have hguard : ¬ ∀ row ∈ ([⟨"a", "SCUOLA PRIMARIA", 1⟩] : List SchoolRow),
      0 < schoolScale (-1) [⟨"a", "SCUOLA PRIMARIA", 1⟩] row.pupils := by
    intro hforall
    have hle := schoolScale_nonpos (-1) [⟨"a", "SCUOLA PRIMARIA", 1⟩]
      (by norm_num) 1
    exact absurd (hforall ⟨"a", "SCUOLA PRIMARIA", 1⟩
      (List.mem_cons_self _ _)) (not_lt.mpr hle)
  rw [if_neg hguard]

/-- C10 (amended): for every school dataset with at least one row, strictly
positive pupil counts and recognized school types, and every strictly positive
mean radius (the positivity of the radius must be assumed: the assert accepts
a negative radius, under which every produced scale is negative),
SchoolFactory.load succeeds and assigns each produced unit the scale
sqrt(pupil count) / mean(sqrt(pupil count)) * meanRadius of its own row; the
produced scales are a permutation of those row values, every produced scale is
strictly positive, and their mean equals the given mean radius. -/
theorem school_scale_formula (r : ℝ) (rows : List SchoolRow) (hr : 0 < r)
    (hne : rows ≠ []) (hpos : ∀ row ∈ rows, 0 < row.pupils)
    (hcat : ∀ row ∈ rows, row.typ ∈ schoolCategories) :
    ∃ us, loadSchool r rows = .ok us ∧
      us.length = rows.length ∧
      (us.map SchoolUnit.scale).Perm
        (rows.map (fun row => schoolScale r rows row.pupils)) ∧
      (∀ u ∈ us, ∃ row ∈ rows,
        u.name = row.name ∧ u.scale = schoolScale r rows row.pupils) ∧
      (∀ u ∈ us, 0 < u.scale) ∧
      (us.map SchoolUnit.scale).sum / (us.length : ℝ) = r := by
  have hrne : ¬ (r = 0) := ne_of_gt hr
  have hcheck :
      rows.all (fun row => schoolCategories.contains row.typ) = true :=
    List.all_eq_true.mpr fun row hrow =>
      List.elem_eq_true_of_mem (hcat row hrow)
  have hposall : ∀ row ∈ rows, 0 < schoolScale r rows row.pupils :=
    schoolScale_pos r rows hr hpos
  have hok : loadSchool r rows = .ok (schoolUnits r rows) := by
    unfold loadSchool
    rw [if_neg hrne, if_pos hcheck, if_pos hposall]
  have hperm0 : ((uniqueInOrder (rows.map SchoolRow.typ)).flatMap
      (fun t => rows.filter (fun row => decide (row.typ = t)))).Perm rows :=
    flatMap_filter_perm SchoolRow.typ _ rows (uniqueInOrder_nodup _)
      (fun row hrow => (uniqueInOrder_mem _ _).mpr
        (List.mem_map_of_mem SchoolRow.typ hrow))
  have hmapeq : (schoolUnits r rows).map SchoolUnit.scale =
      ((uniqueInOrder (rows.map SchoolRow.typ)).flatMap
        (fun t => rows.filter (fun row => decide (row.typ = t)))).map
        (fun row => schoolScale r rows row.pupils) := by
    unfold schoolUnits
    rw [List.map_flatMap, List.map_flatMap]
    congr 1
    funext t
    rw [List.map_map]
    rfl
  have hperm : ((schoolUnits r rows).map SchoolUnit.scale).Perm
      (rows.map (fun row => schoolScale r rows row.pupils)) := by
    rw [hmapeq]
    exact hperm0.map _
  have hlen : (schoolUnits r rows).length = rows.length := by
    have hl := hperm.length_eq
    simpa [List.length_map] using hl
  have humem : ∀ u ∈ schoolUnits r rows, ∃ row ∈ rows,
      u.name = row.name ∧ u.scale = schoolScale r rows row.pupils := by
    intro u hu
    unfold schoolUnits at hu
    obtain ⟨t, ht, hu2⟩ := List.mem_flatMap.mp hu
    obtain ⟨row, hrowf, hueq⟩ := List.mem_map.mp hu2
    exact ⟨row, List.mem_of_mem_filter hrowf, by rw [← hueq], by rw [← hueq]⟩
  have hupos : ∀ u ∈ schoolUnits r rows, 0 < u.scale := by
    intro u hu
    obtain ⟨row, hrow, _, hs⟩ := humem u hu
    rw [hs]
    exact hposall row hrow
  have hS : 0 < (rows.map (fun row => Real.sqrt row.pupils)).sum := by
    refine List.sum_pos _ ?_ (fun h => hne (List.map_eq_nil_iff.mp h))
    intro x hx
    obtain ⟨row, hrow, hxeq⟩ := List.mem_map.mp hx
    rw [← hxeq]
    exact Real.sqrt_pos.mpr (by exact_mod_cast hpos row hrow)
  have hn : (0 : ℝ) < rows.length := by
    exact_mod_cast List.length_pos.mpr hne
  have hmean : ((schoolUnits r rows).map SchoolUnit.scale).sum /
      ((schoolUnits r rows).length : ℝ) = r := by
    rw [hperm.sum_eq, hlen]
    have hfun : (fun row => schoolScale r rows row.pupils) =
        (fun row : SchoolRow => Real.sqrt row.pupils *
          (r / ((rows.map (fun row => Real.sqrt row.pupils)).sum /
            (rows.length : ℝ)))) := by
      funext row
      unfold schoolScale
      ring
    rw [hfun, List.sum_map_mul_right]
    field_simp
  exact ⟨schoolUnits r rows, hok, hlen, hperm, humem, hupos, hmean⟩

/-- C10 witness: the amended scale law on a concrete two-school dataset with
pupil counts 1 and 4 and mean radius 2. -/
theorem school_scale_formula_witness :
    (0 : ℝ) < 2 ∧
    ∃ us, loadSchool 2
        [⟨"a", "SCUOLA PRIMARIA", 1⟩, ⟨"b", "SCUOLA PRIMARIA", 4⟩] = .ok us ∧
      us.length =
        ([⟨"a", "SCUOLA PRIMARIA", 1⟩,
          ⟨"b", "SCUOLA PRIMARIA", 4⟩] : List SchoolRow).length ∧
      (us.map SchoolUnit.scale).Perm
        (([⟨"a", "SCUOLA PRIMARIA", 1⟩,
           ⟨"b", "SCUOLA PRIMARIA", 4⟩] : List SchoolRow).map
          (fun row => schoolScale 2
            [⟨"a", "SCUOLA PRIMARIA", 1⟩, ⟨"b", "SCUOLA PRIMARIA", 4⟩]
            row.pupils)) ∧
      (∀ u ∈ us, ∃ row ∈
          ([⟨"a", "SCUOLA PRIMARIA", 1⟩,
            ⟨"b", "SCUOLA PRIMARIA", 4⟩] : List SchoolRow),
        u.name = row.name ∧ u.scale = schoolScale 2
          [⟨"a", "SCUOLA PRIMARIA", 1⟩, ⟨"b", "SCUOLA PRIMARIA", 4⟩]
          row.pupils) ∧
      (∀ u ∈ us, 0 < u.scale) ∧
      (us.map SchoolUnit.scale).sum / (us.length : ℝ) = 2 :=
  ⟨by norm_num,
    school_scale_formula 2
      [⟨"a", "SCUOLA PRIMARIA", 1⟩, ⟨"b", "SCUOLA PRIMARIA", 4⟩]
      (by norm_num) (by simp) (by decide) (by decide)⟩

end MappaQuartiere
